import Mathlib

/-!
Verification of the SuperTrend indicator calculation engine
(`src/services/supertrend_calculator.py`, data model in `src/core/models.py`).

The engine is embedded shallowly: python floats become exact rationals
(`ℚ`), pandas series become index functions `Nat → ℚ` over a list of bars,
and fallible paths (`return None`) become `Option`.  The float-safety
filter `_validate_float` is modeled exactly on its magnitude branch
(`abs(value) > 1e10 → default`); its NaN/Inf branches are unreachable in
exact rational arithmetic, which is the point of the embedding: every
intermediate value is a genuine rational number.
-/

namespace SuperTrendPro

/-- Candle from `src/core/models.py` `MarketData`.  The optional
bid/ask/spread fields are never read by the calculator and are omitted;
the python field `open` is spelled `open_` because `open` is a Lean
keyword.  Timestamps are opaque integers (the calculator only carries
them through, never computes with them). -/
structure MarketData where
  timestamp : Int
  symbol : String
  open_ : ℚ
  high : ℚ
  low : ℚ
  close : ℚ
  volume : Int
deriving DecidableEq, Repr

/-- Configuration from `src/core/models.py` `SuperTrendConfig`, restricted
to the fields the calculator reads (`periods`, `multiplier`, `rsi_length`,
the RSI thresholds and filter switch, `strong_trend_threshold`).  The
integer thresholds are embedded as rationals, which only widens the
quantification. -/
structure SuperTrendConfig where
  periods : Nat
  multiplier : ℚ
  rsi_length : Nat
  rsi_buy_threshold : ℚ
  rsi_sell_threshold : ℚ
  use_rsi_filter : Bool
  strong_trend_threshold : ℚ
deriving DecidableEq, Repr

/-- Result snapshot from `src/core/models.py` `SuperTrendResult`. -/
structure SuperTrendResult where
  up : ℚ
  down : ℚ
  trend : Int
  atr : ℚ
  rsi : ℚ
  trend_strength : ℚ
  buy_signal : Bool
  sell_signal : Bool
  strong_signal : Bool
deriving DecidableEq, Repr

/-- Mutable state of `SuperTrendCalculator.__init__`. -/
structure SuperTrendCalculator where
  config : SuperTrendConfig
  data : List MarketData
  current_symbol : String
deriving DecidableEq, Repr

/-- `SuperTrendCalculator.add_data`: drop candles whose symbol differs from
the bound symbol, append, and once the buffer exceeds 1000 candles keep the
newest 500 (`self.data = self.data[-500:]`). -/
def add_data (s : SuperTrendCalculator) (candle : MarketData) : SuperTrendCalculator :=
  if candle.symbol ≠ s.current_symbol then s
  else
    let d := s.data ++ [candle]
    if 1000 < d.length then { s with data := d.drop (d.length - 500) }
    else { s with data := d }

/-- `SuperTrendCalculator._validate_float`: the NaN/Inf branches cannot
fire on rationals; the magnitude branch (`abs(value) > 1e10 → default`) is
modeled exactly. -/
def validate_float (value : ℚ) (default : ℚ) : ℚ :=
  if (10 : ℚ) ^ 10 < |value| then default else value

/-- `SuperTrendCalculator._safe_divide` (the NaN/Inf checks on the
denominator are unreachable on rationals). -/
def safe_divide (numerator denominator default : ℚ) : ℚ :=
  if denominator = 0 then default
  else validate_float (numerator / denominator) default

/-- One row of the dataframe built by `_to_dataframe`. -/
structure Row where
  open_ : ℚ
  high : ℚ
  low : ℚ
  close : ℚ
  volume : Int
deriving DecidableEq, Repr

/-- Row conversion in `_to_dataframe`: each OHLC field is passed through
the float filter with default 1.0 and the volume floored at 1; then the
high column is overwritten with the row max of the four OHLC columns, and
afterwards the low column with the row min — the second pandas assignment
reads the already-updated high column, which is why `low` is the min of
open, the repaired high, low and close. -/
def to_row (d : MarketData) : Row :=
  let o := validate_float d.open_ 1
  let h := validate_float d.high 1
  let l := validate_float d.low 1
  let c := validate_float d.close 1
  let h2 := max (max o h) (max l c)
  let l2 := min (min o h2) (min l c)
  { open_ := o, high := h2, low := l2, close := c, volume := max d.volume 1 }

/-- The columns of the dataframe that the numeric pipeline reads
(`df['high']`, `df['low']`, `df['close']`); the open and volume columns
are never read after `_to_dataframe`. -/
structure Bar where
  high : ℚ
  low : ℚ
  close : ℚ
deriving DecidableEq, Repr

/-- Projection of a buffered candle to the columns the pipeline reads. -/
def to_bar (d : MarketData) : Bar :=
  let r := to_row d
  { high := r.high, low := r.low, close := r.close }

def dBar : Bar := ⟨0, 0, 0⟩

def highAt (df : List Bar) (i : Nat) : ℚ := (df.getD i dBar).high

def lowAt (df : List Bar) (i : Nat) : ℚ := (df.getD i dBar).low

def closeAt (df : List Bar) (i : Nat) : ℚ := (df.getD i dBar).close

/-- `tr1 = high - low` in `_calculate_atr`. -/
def tr1At (df : List Bar) (i : Nat) : ℚ := highAt df i - lowAt df i

/-- `tr2 = abs(high - close.shift(1))`, with the first row's NaN replaced
by `tr1` (`tr2.fillna(tr1)`). -/
def tr2At (df : List Bar) (i : Nat) : ℚ :=
  if i = 0 then tr1At df 0 else |highAt df i - closeAt df (i - 1)|

/-- `tr3 = abs(low - close.shift(1))`, first row backfilled with `tr1`. -/
def tr3At (df : List Bar) (i : Nat) : ℚ :=
  if i = 0 then tr1At df 0 else |lowAt df i - closeAt df (i - 1)|

/-- Row max of the three true-range candidates followed by
`clip(lower=0.0001)`. -/
def true_range (df : List Bar) (i : Nat) : ℚ :=
  max (max (max (tr1At df i) (tr2At df i)) (tr3At df i)) (1 / 10000)

/-- `rolling(window=period, min_periods=period).mean()` followed by
`bfill()`: indices before `period - 1` take the first full-window mean. -/
def roll_mean (f : Nat → ℚ) (period i : Nat) : ℚ :=
  if period ≤ i + 1 then
    (Finset.sum (Finset.range period) fun j => f (i + 1 - period + j)) / period
  else
    (Finset.sum (Finset.range period) fun j => f j) / period

/-- The ATR series of `_calculate_atr`: rolling mean of true range,
backfilled, every element passed through the float filter with default
0.0001.  (The `fillna(0.0001)` is unreachable once the length gate below
passed.) -/
def atrAt (df : List Bar) (period i : Nat) : ℚ :=
  validate_float (roll_mean (true_range df) period i) (1 / 10000)

/-- `_calculate_atr` with its length gate (`df.empty or len(df) < period`). -/
def calculate_atr (df : List Bar) (period : Nat) : Option (Nat → ℚ) :=
  if df = [] ∨ df.length < period then none else some (atrAt df period)

/-- `delta = prices.diff().fillna(0)` in `_calculate_rsi`. -/
def deltaAt (closes : List ℚ) (i : Nat) : ℚ :=
  if i = 0 then 0 else closes.getD i 0 - closes.getD (i - 1) 0

/-- `gain = delta.where(delta > 0, 0)`. -/
def gainAt (closes : List ℚ) (i : Nat) : ℚ := max (deltaAt closes i) 0

/-- `loss = -delta.where(delta < 0, 0)`. -/
def lossAt (closes : List ℚ) (i : Nat) : ℚ := max (-deltaAt closes i) 0

/-- The RSI series of `_calculate_rsi`: rolling means of gain and loss
(backfilled), zero average loss replaced by 0.0001 before the division,
`100 - 100/(1+rs)` clipped to [0,100], every element float-filtered with
default 50. -/
def rsiAt (closes : List ℚ) (period i : Nat) : ℚ :=
  let avg_gain := roll_mean (gainAt closes) period i
  let avg_loss := roll_mean (lossAt closes) period i
  let rs := avg_gain / (if avg_loss = 0 then 1 / 10000 else avg_loss)
  validate_float (min (max (100 - 100 / (1 + rs)) 0) 100) 50

/-- `_calculate_rsi` with its length gate
(`prices.empty or len(prices) < period + 1`). -/
def calculate_rsi (closes : List ℚ) (period : Nat) : Option (Nat → ℚ) :=
  if closes = [] ∨ closes.length < period + 1 then none else some (rsiAt closes period)

/-- `hl2 = (high + low) / 2` in `_calculate_supertrend`. -/
def hl2 (df : List Bar) (i : Nat) : ℚ := (highAt df i + lowAt df i) / 2

/-- Multiplier validation in `_calculate_supertrend`: float-filtered with
default 2.0, and replaced by 2.0 when non-positive. -/
def effMultiplier (cfg : SuperTrendConfig) : ℚ :=
  let m := validate_float cfg.multiplier 2
  if m ≤ 0 then 2 else m

/-- `basic_up = hl2 - multiplier * atr`, float-filtered with the last close
as default. -/
def basic_up (cfg : SuperTrendConfig) (df : List Bar) (atrF : Nat → ℚ) (i : Nat) : ℚ :=
  validate_float (hl2 df i - effMultiplier cfg * atrF i) (closeAt df (df.length - 1))

/-- `basic_down = hl2 + multiplier * atr`, float-filtered with the last
close as default. -/
def basic_down (cfg : SuperTrendConfig) (df : List Bar) (atrF : Nat → ℚ) (i : Nat) : ℚ :=
  validate_float (hl2 df i + effMultiplier cfg * atrF i) (closeAt df (df.length - 1))

/-- The final upper band loop of `_calculate_supertrend`: take the basic
band when it exceeds the previous final band or the previous close is at
or below it, otherwise freeze; each updated element is float-filtered with
the current close as default (index 0 is the untouched copy of
`basic_up`). -/
def final_up (cfg : SuperTrendConfig) (df : List Bar) (atrF : Nat → ℚ) : Nat → ℚ
  | 0 => basic_up cfg df atrF 0
  | i + 1 =>
    validate_float
      (if basic_up cfg df atrF (i + 1) > final_up cfg df atrF i ∨
          closeAt df i ≤ final_up cfg df atrF i
       then basic_up cfg df atrF (i + 1) else final_up cfg df atrF i)
      (closeAt df (i + 1))

/-- The final lower band loop, mirror image of `final_up`. -/
def final_down (cfg : SuperTrendConfig) (df : List Bar) (atrF : Nat → ℚ) : Nat → ℚ
  | 0 => basic_down cfg df atrF 0
  | i + 1 =>
    validate_float
      (if basic_down cfg df atrF (i + 1) < final_down cfg df atrF i ∨
          closeAt df i ≥ final_down cfg df atrF i
       then basic_down cfg df atrF (i + 1) else final_down cfg df atrF i)
      (closeAt df (i + 1))

/-- The trend loop of `_calculate_supertrend`: bullish seed, flip to +1
when a bearish trend closes above the final lower band, flip to -1 when a
bullish trend closes below the final upper band, otherwise carry. -/
def trendAt (cfg : SuperTrendConfig) (df : List Bar) (atrF : Nat → ℚ) : Nat → Int
  | 0 => 1
  | i + 1 =>
    if trendAt cfg df atrF i = -1 ∧ closeAt df (i + 1) > final_down cfg df atrF (i + 1) then 1
    else if trendAt cfg df atrF i = 1 ∧ closeAt df (i + 1) < final_up cfg df atrF (i + 1) then -1
    else trendAt cfg df atrF i

/-- `_calculate_supertrend`: emptiness gate, then the last final bands
(float-filtered with the last close) and the last trend filtered into
{-1, +1}.  (The python length-mismatch gate `len(df) != len(atr)` is
vacuous here because the ATR series is embedded as a total index
function.) -/
def calculate_supertrend (cfg : SuperTrendConfig) (df : List Bar) (atrF : Nat → ℚ) :
    Option (ℚ × ℚ × Int) :=
  if df = [] then none
  else
    some (validate_float (final_up cfg df atrF (df.length - 1)) (closeAt df (df.length - 1)),
          validate_float (final_down cfg df atrF (df.length - 1)) (closeAt df (df.length - 1)),
          if trendAt cfg df atrF (df.length - 1) = -1 ∨ trendAt cfg df atrF (df.length - 1) = 1
          then trendAt cfg df atrF (df.length - 1) else 1)

/-- `_calculate_previous_trend`: rerun ATR and SuperTrend on the series
with the last bar excluded. -/
def calculate_previous_trend (cfg : SuperTrendConfig) (df : List Bar) : Option (ℚ × ℚ × Int) :=
  if df = [] ∨ df.length < cfg.periods then none
  else
    match calculate_atr df cfg.periods with
    | none => none
    | some atrF => calculate_supertrend cfg df atrF

/-- `_generate_signals`: no signal with fewer than two bars or when the
previous-trend recomputation fails; otherwise a buy (resp. sell) exactly
when the trend differs from the previous-step trend, is now bullish
(resp. bearish), and the RSI filter does not veto it. -/
def generate_signals (cfg : SuperTrendConfig) (df : List Bar) (current_trend : Int)
    (rsiF : Nat → ℚ) : Bool × Bool :=
  if df.length < 2 then (false, false)
  else
    match calculate_previous_trend cfg df.dropLast with
    | none => (false, false)
    | some (_, _, prev_trend) =>
      if current_trend ≠ prev_trend then
        let current_rsi := validate_float (rsiF (df.length - 1)) 50
        if current_trend = 1 then
          (!(cfg.use_rsi_filter && decide (current_rsi ≤ cfg.rsi_buy_threshold)), false)
        else if current_trend = -1 then
          (false, !(cfg.use_rsi_filter && decide (current_rsi ≥ cfg.rsi_sell_threshold)))
        else (false, false)
      else (false, false)

/-- The tail of `calculate` (lines 100-131): validation of the current
ATR/RSI/price, revalidation of the bands with the current price as
default, the {-1,+1} filter on the trend, trend strength by safe division
clamped to [0,100], signal generation, and assembly of the snapshot. -/
def assemble (cfg : SuperTrendConfig) (df : List Bar) (atrF rsiF : Nat → ℚ)
    (u d : ℚ) (t : Int) : SuperTrendResult :=
  let current_atr := validate_float (atrF (df.length - 1)) (1 / 10000)
  let current_rsi := validate_float (rsiF (df.length - 1)) 50
  let current_price := validate_float (closeAt df (df.length - 1)) 1
  let up := validate_float u current_price
  let down := validate_float d current_price
  let trend : Int := if t = -1 ∨ t = 1 then t else 1
  let trend_level := if trend = 1 then up else down
  let price_diff := |current_price - trend_level|
  let trend_strength := min (max (safe_divide price_diff current_atr 0 * 100) 0) 100
  let sig := generate_signals cfg df trend rsiF
  { up := up, down := down, trend := trend, atr := current_atr, rsi := current_rsi,
    trend_strength := trend_strength, buy_signal := sig.1, sell_signal := sig.2,
    strong_signal := decide (trend_strength > cfg.strong_trend_threshold) }

/-- `calculate` after `_to_dataframe`: the insufficient-data gate on the
buffer length, the dataframe gate, and the three fallible stages. -/
def calcFromDf (cfg : SuperTrendConfig) (n : Nat) (df : List Bar) : Option SuperTrendResult :=
  if n < cfg.periods + 1 then none
  else if df = [] ∨ df.length < cfg.periods then none
  else
    match calculate_atr df cfg.periods with
    | none => none
    | some atrF =>
      match calculate_rsi (df.map Bar.close) cfg.rsi_length with
      | none => none
      | some rsiF =>
        match calculate_supertrend cfg df atrF with
        | none => none
        | some (u, d, t) => some (assemble cfg df atrF rsiF u d t)

/-- `SuperTrendCalculator.calculate` on a given buffer content:`None`
is the insufficient-data (or failed-stage) outcome. -/
def calculate (cfg : SuperTrendConfig) (data : List MarketData) : Option SuperTrendResult :=
  calcFromDf cfg data.length (data.map to_bar)

end SuperTrendPro

namespace SuperTrendPro

/-! Basic facts about the float-safety filter. -/

theorem vf_id {v d : ℚ} (h : |v| ≤ (10 : ℚ) ^ 10) : validate_float v d = v := by
  unfold validate_float
  rw [if_neg (not_lt.mpr h)]

theorem vf_default {v d : ℚ} (h : (10 : ℚ) ^ 10 < |v|) : validate_float v d = d := by
  unfold validate_float
  rw [if_pos h]

theorem vf_bound {v d : ℚ} (hd : |d| ≤ (10 : ℚ) ^ 10) :
    |validate_float v d| ≤ (10 : ℚ) ^ 10 := by
  unfold validate_float
  by_cases h : (10 : ℚ) ^ 10 < |v|
  · rw [if_pos h]; exact hd
  · rw [if_neg h]; exact not_lt.mp h

/-! The final-band loops never trigger their inner float filter as long as
the last close (the default used when validating the basic bands) is in
range: every basic and final band value is then itself in range. -/

theorem basic_up_bound (cfg : SuperTrendConfig) (df : List Bar) (atrF : Nat → ℚ)
    (hc : |closeAt df (df.length - 1)| ≤ (10 : ℚ) ^ 10) (i : Nat) :
    |basic_up cfg df atrF i| ≤ (10 : ℚ) ^ 10 :=
  vf_bound hc

theorem basic_down_bound (cfg : SuperTrendConfig) (df : List Bar) (atrF : Nat → ℚ)
    (hc : |closeAt df (df.length - 1)| ≤ (10 : ℚ) ^ 10) (i : Nat) :
    |basic_down cfg df atrF i| ≤ (10 : ℚ) ^ 10 :=
  vf_bound hc

theorem final_up_bound (cfg : SuperTrendConfig) (df : List Bar) (atrF : Nat → ℚ)
    (hc : |closeAt df (df.length - 1)| ≤ (10 : ℚ) ^ 10) (i : Nat) :
    |final_up cfg df atrF i| ≤ (10 : ℚ) ^ 10 := by
  induction i with
  | zero => exact basic_up_bound cfg df atrF hc 0
  | succ i ih =>
    have hb := basic_up_bound cfg df atrF hc (i + 1)
    simp only [final_up]
    by_cases h : basic_up cfg df atrF (i + 1) > final_up cfg df atrF i ∨
        closeAt df i ≤ final_up cfg df atrF i
    · rw [if_pos h, vf_id hb]; exact hb
    · rw [if_neg h, vf_id ih]; exact ih

theorem final_down_bound (cfg : SuperTrendConfig) (df : List Bar) (atrF : Nat → ℚ)
    (hc : |closeAt df (df.length - 1)| ≤ (10 : ℚ) ^ 10) (i : Nat) :
    |final_down cfg df atrF i| ≤ (10 : ℚ) ^ 10 := by
  induction i with
  | zero => exact basic_down_bound cfg df atrF hc 0
  | succ i ih =>
    have hb := basic_down_bound cfg df atrF hc (i + 1)
    simp only [final_down]
    by_cases h : basic_down cfg df atrF (i + 1) < final_down cfg df atrF i ∨
        closeAt df i ≥ final_down cfg df atrF i
    · rw [if_pos h, vf_id hb]; exact hb
    · rw [if_neg h, vf_id ih]; exact ih

theorem final_up_succ (cfg : SuperTrendConfig) (df : List Bar) (atrF : Nat → ℚ)
    (hc : |closeAt df (df.length - 1)| ≤ (10 : ℚ) ^ 10) (i : Nat) :
    final_up cfg df atrF (i + 1) =
      if basic_up cfg df atrF (i + 1) > final_up cfg df atrF i ∨
         closeAt df i ≤ final_up cfg df atrF i
      then basic_up cfg df atrF (i + 1) else final_up cfg df atrF i := by
  simp only [final_up]
  by_cases h : basic_up cfg df atrF (i + 1) > final_up cfg df atrF i ∨
      closeAt df i ≤ final_up cfg df atrF i
  · rw [if_pos h]; exact vf_id (basic_up_bound cfg df atrF hc (i + 1))
  · rw [if_neg h]; exact vf_id (final_up_bound cfg df atrF hc i)

theorem final_down_succ (cfg : SuperTrendConfig) (df : List Bar) (atrF : Nat → ℚ)
    (hc : |closeAt df (df.length - 1)| ≤ (10 : ℚ) ^ 10) (i : Nat) :
    final_down cfg df atrF (i + 1) =
      if basic_down cfg df atrF (i + 1) < final_down cfg df atrF i ∨
         closeAt df i ≥ final_down cfg df atrF i
      then basic_down cfg df atrF (i + 1) else final_down cfg df atrF i := by
  simp only [final_down]
  by_cases h : basic_down cfg df atrF (i + 1) < final_down cfg df atrF i ∨
      closeAt df i ≥ final_down cfg df atrF i
  · rw [if_pos h]; exact vf_id (basic_down_bound cfg df atrF hc (i + 1))
  · rw [if_neg h]; exact vf_id (final_down_bound cfg df atrF hc i)

theorem effMultiplier_eq (cfg : SuperTrendConfig) (h1 : 0 < cfg.multiplier)
    (h2 : cfg.multiplier ≤ (10 : ℚ) ^ 10) : effMultiplier cfg = cfg.multiplier := by
  simp only [effMultiplier]
  rw [vf_id (by rwa [abs_of_pos h1]), if_neg (not_le.mpr h1)]

end SuperTrendPro

namespace SuperTrendPro

/-- C1: Band freeze/ratchet rule of `_calculate_supertrend` (lines
252-287).  For every price/ATR series and every index `i > 0`, the final
upper band takes the basic band when it exceeds the previous final band or
the previous close is at or below it, else it freezes; symmetrically for
the lower band; the basic bands are `hl2 ∓ multiplier * ATR` with
`hl2 = (high + low) / 2`.  Hypotheses: the last close (the default value
of the basic-band float filter) is in the filter's range, and — for the
basic-band formula — the configured multiplier is positive and the raw
band values are in range, so that no float-filter substitution fires. -/
theorem c1_band_freeze_rule (cfg : SuperTrendConfig) (df : List Bar) (atrF : Nat → ℚ)
    (i : Nat) (h0 : 0 < i) (hc : |closeAt df (df.length - 1)| ≤ (10 : ℚ) ^ 10) :
    (final_up cfg df atrF i =
      if basic_up cfg df atrF i > final_up cfg df atrF (i - 1) ∨
         closeAt df (i - 1) ≤ final_up cfg df atrF (i - 1)
      then basic_up cfg df atrF i else final_up cfg df atrF (i - 1))
    ∧ (final_down cfg df atrF i =
      if basic_down cfg df atrF i < final_down cfg df atrF (i - 1) ∨
         closeAt df (i - 1) ≥ final_down cfg df atrF (i - 1)
      then basic_down cfg df atrF i else final_down cfg df atrF (i - 1))
    ∧ (0 < cfg.multiplier → cfg.multiplier ≤ (10 : ℚ) ^ 10 →
        |hl2 df i - cfg.multiplier * atrF i| ≤ (10 : ℚ) ^ 10 →
        basic_up cfg df atrF i = hl2 df i - cfg.multiplier * atrF i)
    ∧ (0 < cfg.multiplier → cfg.multiplier ≤ (10 : ℚ) ^ 10 →
        |hl2 df i + cfg.multiplier * atrF i| ≤ (10 : ℚ) ^ 10 →
        basic_down cfg df atrF i = hl2 df i + cfg.multiplier * atrF i)
    ∧ hl2 df i = (highAt df i + lowAt df i) / 2 := by
  obtain ⟨j, rfl⟩ : ∃ j, i = j + 1 := ⟨i - 1, (Nat.succ_pred_eq_of_pos h0).symm⟩
  refine ⟨final_up_succ cfg df atrF hc j, final_down_succ cfg df atrF hc j, ?_, ?_, rfl⟩
  · intro hm1 hm2 hb
    show validate_float (hl2 df (j + 1) - effMultiplier cfg * atrF (j + 1))
      (closeAt df (df.length - 1)) = _
    rw [effMultiplier_eq cfg hm1 hm2]
    exact vf_id hb
  · intro hm1 hm2 hb
    show validate_float (hl2 df (j + 1) + effMultiplier cfg * atrF (j + 1))
      (closeAt df (df.length - 1)) = _
    rw [effMultiplier_eq cfg hm1 hm2]
    exact vf_id hb

def c1cfg : SuperTrendConfig := ⟨2, 2, 2, 50, 50, true, 50⟩

def c1df : List Bar := [⟨2, 1, 3/2⟩, ⟨3, 2, 5/2⟩]

def c1atr : Nat → ℚ := fun _ => 1

/-- Witness for C1 at a concrete two-bar series with unit ATR. -/
theorem c1_band_freeze_rule_witness :
    (final_up c1cfg c1df c1atr 1 =
      if basic_up c1cfg c1df c1atr 1 > final_up c1cfg c1df c1atr 0 ∨
         closeAt c1df 0 ≤ final_up c1cfg c1df c1atr 0
      then basic_up c1cfg c1df c1atr 1 else final_up c1cfg c1df c1atr 0)
    ∧ (final_down c1cfg c1df c1atr 1 =
      if basic_down c1cfg c1df c1atr 1 < final_down c1cfg c1df c1atr 0 ∨
         closeAt c1df 0 ≥ final_down c1cfg c1df c1atr 0
      then basic_down c1cfg c1df c1atr 1 else final_down c1cfg c1df c1atr 0)
    ∧ basic_up c1cfg c1df c1atr 1 = hl2 c1df 1 - c1cfg.multiplier * c1atr 1
    ∧ basic_down c1cfg c1df c1atr 1 = hl2 c1df 1 + c1cfg.multiplier * c1atr 1
    ∧ hl2 c1df 1 = (highAt c1df 1 + lowAt c1df 1) / 2 := by
  have T := c1_band_freeze_rule c1cfg c1df c1atr 1 (by decide) (by decide!)
  exact ⟨T.1, T.2.1, T.2.2.1 (by decide!) (by decide!) (by decide!),
    T.2.2.2.1 (by decide!) (by decide!) (by decide!), T.2.2.2.2⟩

/-- The trend loop only ever produces the values +1 and -1. -/
theorem trendAt_mem (cfg : SuperTrendConfig) (df : List Bar) (atrF : Nat → ℚ) (i : Nat) :
    trendAt cfg df atrF i = 1 ∨ trendAt cfg df atrF i = -1 := by
  induction i with
  | zero => exact Or.inl rfl
  | succ i ih =>
    simp only [trendAt]
    split
    · exact Or.inl rfl
    · split
      · exact Or.inr rfl
      · exact ih

/-- C2: Trend derivation of `_calculate_supertrend` (lines 297-318).  The
trend sequence is seeded bullish, flips to +1 when a bearish trend closes
above the final lower band, flips to -1 when a bullish trend closes below
the final upper band, and otherwise carries forward; the reported trend is
the last element of the sequence and is always +1 or -1. -/
theorem c2_trend_derivation (cfg : SuperTrendConfig) (df : List Bar) (atrF : Nat → ℚ)
    (u d : ℚ) (t : Int) (i : Nat)
    (h : calculate_supertrend cfg df atrF = some (u, d, t)) :
    trendAt cfg df atrF 0 = 1
    ∧ (trendAt cfg df atrF (i + 1) =
        if trendAt cfg df atrF i = -1 ∧ closeAt df (i + 1) > final_down cfg df atrF (i + 1)
        then 1
        else if trendAt cfg df atrF i = 1 ∧ closeAt df (i + 1) < final_up cfg df atrF (i + 1)
        then -1
        else trendAt cfg df atrF i)
    ∧ t = trendAt cfg df atrF (df.length - 1)
    ∧ (t = 1 ∨ t = -1) := by
  have hmem := trendAt_mem cfg df atrF (df.length - 1)
  have ht : t = trendAt cfg df atrF (df.length - 1) := by
    unfold calculate_supertrend at h
    by_cases hdf : df = []
    · rw [if_pos hdf] at h; exact absurd h (by simp)
    · rw [if_neg hdf] at h
      simp only [Option.some.injEq, Prod.mk.injEq] at h
      obtain ⟨-, -, h3⟩ := h
      rw [← h3, if_pos (hmem.elim Or.inr Or.inl)]
  exact ⟨rfl, by simp only [trendAt], ht, ht ▸ hmem⟩

def c2cfg : SuperTrendConfig := ⟨1, 2, 1, 50, 50, true, 50⟩

def c2df : List Bar := [⟨1, 1, 1⟩]

def c2atr : Nat → ℚ := fun _ => 1/10000

/-- Witness for C2 at a one-bar series. -/
theorem c2_trend_derivation_witness :
    (calculate_supertrend c2cfg c2df c2atr = some (4999/5000, 5001/5000, 1))
    ∧ (trendAt c2cfg c2df c2atr 0 = 1
    ∧ (trendAt c2cfg c2df c2atr 1 =
        if trendAt c2cfg c2df c2atr 0 = -1 ∧ closeAt c2df 1 > final_down c2cfg c2df c2atr 1
        then 1
        else if trendAt c2cfg c2df c2atr 0 = 1 ∧ closeAt c2df 1 < final_up c2cfg c2df c2atr 1
        then -1
        else trendAt c2cfg c2df c2atr 0)
    ∧ (1 : Int) = trendAt c2cfg c2df c2atr (c2df.length - 1)
    ∧ ((1 : Int) = 1 ∨ (1 : Int) = -1)) :=
  ⟨by decide!, c2_trend_derivation c2cfg c2df c2atr (4999/5000) (5001/5000) 1 0 (by decide!)⟩

def c4cfg : SuperTrendConfig := ⟨10, 2, 14, 50, 50, true, 50⟩

def c4df : List Bar := [⟨12, 8, 10⟩, ⟨12, 8, 8⟩, ⟨12, 7, 7⟩]

def c4atr : Nat → ℚ := fun i => if i = 0 then 1 else if i = 1 then 1 else 5/4

/-- C4 counterexample: with the three-bar series `c4df` and ATR series
`c4atr`, the trend is +1 at indices 1 and 2 (no flip), yet the final upper
band falls from 8 to 7 at index 2: the reset branch
(`close[1] ≤ finalUpper[1]`, here with equality) fires without the trend
having flipped, so the band is not monotone while the trend stays +1. -/
theorem c4_band_ratchet_cex :
    trendAt c4cfg c4df c4atr 1 = 1 ∧ trendAt c4cfg c4df c4atr 2 = 1 ∧
    final_up c4cfg c4df c4atr 2 < final_up c4cfg c4df c4atr 1 := by decide!

/-- C4 amended: the ratchet holds under the additional hypothesis that the
previous close is strictly on the trend side of the band (strictly above
the final upper band, resp. strictly below the final lower band) — exactly
the condition that disables the reset branch of the band loop.  The
counterexample `c4_band_ratchet_cex` shows the trend hypotheses alone do
not suffice when the previous close touches the band. -/
theorem c4_band_ratchet_amended (cfg : SuperTrendConfig) (df : List Bar) (atrF : Nat → ℚ)
    (i : Nat) (h0 : 0 < i) (hc : |closeAt df (df.length - 1)| ≤ (10 : ℚ) ^ 10) :
    ((trendAt cfg df atrF (i - 1) = 1 ∧ trendAt cfg df atrF i = 1 ∧
      closeAt df (i - 1) > final_up cfg df atrF (i - 1)) →
      final_up cfg df atrF (i - 1) ≤ final_up cfg df atrF i)
    ∧ ((trendAt cfg df atrF (i - 1) = -1 ∧ trendAt cfg df atrF i = -1 ∧
      closeAt df (i - 1) < final_down cfg df atrF (i - 1)) →
      final_down cfg df atrF i ≤ final_down cfg df atrF (i - 1)) := by
  obtain ⟨j, rfl⟩ : ∃ j, i = j + 1 := ⟨i - 1, (Nat.succ_pred_eq_of_pos h0).symm⟩
  constructor
  · rintro ⟨-, -, hgt⟩
    rw [final_up_succ cfg df atrF hc j]
    by_cases hcnd : basic_up cfg df atrF (j + 1) > final_up cfg df atrF j ∨
        closeAt df j ≤ final_up cfg df atrF j
    · rw [if_pos hcnd]
      rcases hcnd with hlt | hle
      · exact le_of_lt hlt
      · exact absurd hle (not_le.mpr hgt)
    · rw [if_neg hcnd]; exact le_rfl
  · rintro ⟨-, -, hlt⟩
    rw [final_down_succ cfg df atrF hc j]
    by_cases hcnd : basic_down cfg df atrF (j + 1) < final_down cfg df atrF j ∨
        closeAt df j ≥ final_down cfg df atrF j
    · rw [if_pos hcnd]
      rcases hcnd with hbd | hge
      · exact le_of_lt hbd
      · exact absurd hge (not_le.mpr hlt)
    · rw [if_neg hcnd]; exact le_rfl

/-- Witness for the amended C4 at index 1 of the counterexample series,
where the previous close (10) is strictly above the band (8): the band
does not decrease there. -/
theorem c4_band_ratchet_amended_witness :
    final_up c4cfg c4df c4atr 0 ≤ final_up c4cfg c4df c4atr 1
    ∧ ((trendAt c4cfg c4df c4atr 0 = -1 ∧ trendAt c4cfg c4df c4atr 1 = -1 ∧
      closeAt c4df 0 < final_down c4cfg c4df c4atr 0) →
      final_down c4cfg c4df c4atr 1 ≤ final_down c4cfg c4df c4atr 0) := by
  have T := c4_band_ratchet_amended c4cfg c4df c4atr 1 (by decide) (by decide!)
  exact ⟨T.1 ⟨by decide!, by decide!, by decide!⟩, T.2⟩

end SuperTrendPro

namespace SuperTrendPro

/-- C7: ATR algorithm of `_calculate_atr` (lines 167-204).  On a series of
length at least `period` the stage succeeds and returns the ATR series;
the true range at `i > 0` is the max of `high-low`, `|high-prevClose|`
and `|low-prevClose|` (then floored), at `i = 0` it defaults to
`high-low` (floored); every true range is at least the 0.0001 floor; the
ATR at a full-window index is the simple rolling mean of true range over
`period` bars (provided the mean itself is in the float filter's range),
and indices before the first full window are backfilled with the first
available ATR value.  The series is total — no index is left without a
value, the embedding's rendering of the no-NaN backfill. -/
theorem c7_atr_algorithm (df : List Bar) (p i1 i2 i3 : Nat)
    (hdf : df ≠ []) (hlen : p ≤ df.length) :
    calculate_atr df p = some (atrAt df p)
    ∧ (0 < i1 → true_range df i1 =
        max (max (max (highAt df i1 - lowAt df i1) |highAt df i1 - closeAt df (i1 - 1)|)
          |lowAt df i1 - closeAt df (i1 - 1)|) (1 / 10000))
    ∧ true_range df 0 = max (highAt df 0 - lowAt df 0) (1 / 10000)
    ∧ 1 / 10000 ≤ true_range df i1
    ∧ (p ≤ i2 + 1 →
        |(Finset.sum (Finset.range p) fun j => true_range df (i2 + 1 - p + j)) / p| ≤ (10 : ℚ) ^ 10 →
        atrAt df p i2 = (Finset.sum (Finset.range p) fun j => true_range df (i2 + 1 - p + j)) / p)
    ∧ (i3 + 1 < p → atrAt df p i3 = atrAt df p (p - 1)) := by
  refine ⟨?_, ?_, ?_, le_max_right _ _, ?_, ?_⟩
  · unfold calculate_atr
    rw [if_neg (not_or.mpr ⟨hdf, not_lt.mpr hlen⟩)]
  · intro h1
    obtain ⟨k, rfl⟩ : ∃ k, i1 = k + 1 := ⟨i1 - 1, (Nat.succ_pred_eq_of_pos h1).symm⟩
    unfold true_range tr1At tr2At tr3At
    rw [if_neg (Nat.succ_ne_zero k), if_neg (Nat.succ_ne_zero k)]
  · unfold true_range tr2At tr3At
    rw [if_pos rfl, if_pos rfl, max_self, max_self]
    rfl
  · intro hp hb
    unfold atrAt roll_mean
    rw [if_pos hp]
    exact vf_id hb
  · intro h3
    have hp0 : 0 < p := by omega
    have hp1 : p - 1 + 1 = p := Nat.succ_pred_eq_of_pos hp0
    unfold atrAt roll_mean
    rw [if_neg (by omega), if_pos (le_of_eq hp1.symm)]
    simp only [hp1, Nat.sub_self, Nat.zero_add]

def c7df : List Bar := [⟨2, 1, 3/2⟩, ⟨3, 2, 5/2⟩]

/-- Witness for C7 on a concrete two-bar series with `period = 2`. -/
theorem c7_atr_algorithm_witness :
    calculate_atr c7df 2 = some (atrAt c7df 2)
    ∧ true_range c7df 1 =
        max (max (max (highAt c7df 1 - lowAt c7df 1) |highAt c7df 1 - closeAt c7df 0|)
          |lowAt c7df 1 - closeAt c7df 0|) (1 / 10000)
    ∧ true_range c7df 0 = max (highAt c7df 0 - lowAt c7df 0) (1 / 10000)
    ∧ 1 / 10000 ≤ true_range c7df 1
    ∧ atrAt c7df 2 1 = (Finset.sum (Finset.range 2) fun j => true_range c7df (1 + 1 - 2 + j)) / 2
    ∧ atrAt c7df 2 0 = atrAt c7df 2 (2 - 1) := by
  have T := c7_atr_algorithm c7df 2 1 1 0 (by decide!) (by decide)
  exact ⟨T.1, T.2.1 (by decide), T.2.2.1, T.2.2.2.1,
    T.2.2.2.2.1 (by decide) (by decide!), T.2.2.2.2.2 (by decide)⟩

/-- C8 counterexample: for the candle with open=5, high=1, low=3, close=5
the repaired low is 3 — the min of open, low, close and the *already
repaired* high — whereas the minimum of the four (validated) OHLC values
is the original high, 1.  The pandas code assigns the high column first
and computes the low column from the updated high, so the claimed "min of
the four OHLC values" does not hold for the low. -/
theorem c8_ohlc_repair_cex :
    ¬ ((to_row ⟨0, "S", 5, 1, 3, 5, 1⟩).low =
      min (min (validate_float (5 : ℚ) 1) (validate_float 1 1))
        (min (validate_float 3 1) (validate_float 5 1))) := by decide!

/-- C8 amended: the repair clamps rather than rejects — `to_row` is total;
the high is replaced by the max of the four validated OHLC values, the low
by the min of the validated open, the repaired high, the validated low and
the validated close (equivalently min(open, low, close)); after repair
every row satisfies the OHLC envelope `high ≥ max(open, close)` and
`low ≤ min(open, close)`. -/
theorem c8_ohlc_repair_amended (d : MarketData) :
    (to_row d).high =
      max (max (validate_float d.open_ 1) (validate_float d.high 1))
        (max (validate_float d.low 1) (validate_float d.close 1))
    ∧ (to_row d).low =
      min (min (validate_float d.open_ 1) ((to_row d).high))
        (min (validate_float d.low 1) (validate_float d.close 1))
    ∧ max (to_row d).open_ (to_row d).close ≤ (to_row d).high
    ∧ (to_row d).low ≤ min (to_row d).open_ (to_row d).close := by
  refine ⟨rfl, rfl, ?_, ?_⟩
  · exact max_le (le_trans (le_max_left _ _) (le_max_left _ _))
      (le_trans (le_max_right _ _) (le_max_right _ _))
  · exact le_min (le_trans (min_le_left _ _) (min_le_left _ _))
      (le_trans (min_le_right _ _) (min_le_right _ _))

/-- C9: Buffer eviction invariant of `add_data` (lines 33-41).  Appending
preserves the 1000-candle bound; appending to a buffer of exactly 1000
candles trims to exactly the newest 500 (`drop 501` of the appended list);
appending a candle with a non-matching symbol is a silent no-op. -/
theorem c9_buffer_eviction (s : SuperTrendCalculator) (c : MarketData) :
    (s.data.length ≤ 1000 → (add_data s c).data.length ≤ 1000)
    ∧ (s.data.length = 1000 → c.symbol = s.current_symbol →
        (add_data s c).data = (s.data ++ [c]).drop 501 ∧ (add_data s c).data.length = 500)
    ∧ (c.symbol ≠ s.current_symbol → add_data s c = s) := by
  by_cases hs : c.symbol ≠ s.current_symbol
  · have hno : add_data s c = s := by
      unfold add_data
      rw [if_pos hs]
    refine ⟨fun h => by rw [hno]; exact h, fun h1 h2 => absurd h2 hs, fun _ => hno⟩
  · have happ : (s.data ++ [c]).length = s.data.length + 1 := by
      simp [List.length_append]
    by_cases hlen : 1000 < (s.data ++ [c]).length
    · have hdat : (add_data s c).data = (s.data ++ [c]).drop ((s.data ++ [c]).length - 500) := by
        unfold add_data
        rw [if_neg hs, if_pos hlen]
      refine ⟨?_, ?_, fun h => absurd h hs⟩
      · intro hb
        rw [hdat, List.length_drop]
        omega
      · intro h1 _
        have h1001 : (s.data ++ [c]).length = 1001 := by omega
        constructor
        · rw [hdat, h1001]
        · rw [hdat, List.length_drop, h1001]
    · have hdat : (add_data s c).data = s.data ++ [c] := by
        unfold add_data
        rw [if_neg hs, if_neg hlen]
      refine ⟨?_, ?_, fun h => absurd h hs⟩
      · intro _
        rw [hdat]
        omega
      · intro h1 _
        exact absurd (by omega : 1000 < (s.data ++ [c]).length) hlen

def c9cfg : SuperTrendConfig := ⟨20, 2, 14, 50, 50, true, 50⟩

def c9candle : MarketData := ⟨0, "EURUSD", 1, 1, 1, 1, 1⟩

def c9calc : SuperTrendCalculator := ⟨c9cfg, List.replicate 1000 c9candle, "EURUSD"⟩

def c9other : MarketData := ⟨0, "GBPUSD", 1, 1, 1, 1, 1⟩

/-- Witness for C9: a full 1000-candle buffer is trimmed to the newest 500
on the next matching append, stays within the cap, and ignores a
mismatched symbol. -/
theorem c9_buffer_eviction_witness :
    (add_data c9calc c9candle).data = (c9calc.data ++ [c9candle]).drop 501
    ∧ (add_data c9calc c9candle).data.length = 500
    ∧ (add_data c9calc c9candle).data.length ≤ 1000
    ∧ add_data c9calc c9other = c9calc := by
  have hfull : c9calc.data.length = 1000 := by
    show (List.replicate 1000 c9candle).length = 1000
    rw [List.length_replicate]
  have T := c9_buffer_eviction c9calc c9candle
  have T2 := c9_buffer_eviction c9calc c9other
  obtain ⟨hd, hl⟩ := T.2.1 hfull rfl
  exact ⟨hd, hl, T.1 (le_of_eq hfull), T2.2.2 (by decide)⟩

end SuperTrendPro

namespace SuperTrendPro

/-- The snapshot `calculate` assembles once all gates have passed. -/
def calcResult (cfg : SuperTrendConfig) (data : List MarketData) : SuperTrendResult :=
  assemble cfg (data.map to_bar) (atrAt (data.map to_bar) cfg.periods)
    (rsiAt ((data.map to_bar).map Bar.close) cfg.rsi_length)
    (validate_float
      (final_up cfg (data.map to_bar) (atrAt (data.map to_bar) cfg.periods)
        ((data.map to_bar).length - 1))
      (closeAt (data.map to_bar) ((data.map to_bar).length - 1)))
    (validate_float
      (final_down cfg (data.map to_bar) (atrAt (data.map to_bar) cfg.periods)
        ((data.map to_bar).length - 1))
      (closeAt (data.map to_bar) ((data.map to_bar).length - 1)))
    (if trendAt cfg (data.map to_bar) (atrAt (data.map to_bar) cfg.periods)
          ((data.map to_bar).length - 1) = -1 ∨
        trendAt cfg (data.map to_bar) (atrAt (data.map to_bar) cfg.periods)
          ((data.map to_bar).length - 1) = 1
     then trendAt cfg (data.map to_bar) (atrAt (data.map to_bar) cfg.periods)
          ((data.map to_bar).length - 1)
     else 1)

theorem calculate_none_short (cfg : SuperTrendConfig) (data : List MarketData)
    (h : data.length < cfg.periods + 1) : calculate cfg data = none := by
  unfold calculate calcFromDf
  rw [if_pos h]

theorem calculate_none_rsi (cfg : SuperTrendConfig) (data : List MarketData)
    (h : data.length < cfg.rsi_length + 1) : calculate cfg data = none := by
  by_cases h1 : data.length < cfg.periods + 1
  · exact calculate_none_short cfg data h1
  · have hmap : (data.map to_bar).length = data.length := by simp
    have hne : data.map to_bar ≠ [] := by
      have hpos : 0 < (data.map to_bar).length := by rw [hmap]; omega
      exact List.length_pos.mp hpos
    have g2 : ¬ ((data.map to_bar) = [] ∨ (data.map to_bar).length < cfg.periods) :=
      not_or.mpr ⟨hne, by rw [hmap]; omega⟩
    have g3 : ((data.map to_bar).map Bar.close) = [] ∨
        ((data.map to_bar).map Bar.close).length < cfg.rsi_length + 1 :=
      Or.inr (by simp; omega)
    simp only [calculate, calcFromDf, calculate_atr, calculate_rsi,
      if_neg h1, if_neg g2, if_pos g3]

theorem calculate_eq (cfg : SuperTrendConfig) (data : List MarketData)
    (h1 : cfg.periods + 1 ≤ data.length) (h2 : cfg.rsi_length + 1 ≤ data.length) :
    calculate cfg data = some (calcResult cfg data) := by
  have hmap : (data.map to_bar).length = data.length := by simp
  have hne : data.map to_bar ≠ [] := by
    have hpos : 0 < (data.map to_bar).length := by rw [hmap]; omega
    exact List.length_pos.mp hpos
  have g1 : ¬ (data.length < cfg.periods + 1) := not_lt.mpr h1
  have g2 : ¬ ((data.map to_bar) = [] ∨ (data.map to_bar).length < cfg.periods) :=
    not_or.mpr ⟨hne, by rw [hmap]; omega⟩
  have hmapc : ((data.map to_bar).map Bar.close).length = data.length := by simp
  have hnec : (data.map to_bar).map Bar.close ≠ [] := by
    have hpos : 0 < ((data.map to_bar).map Bar.close).length := by rw [hmapc]; omega
    exact List.length_pos.mp hpos
  have g3 : ¬ (((data.map to_bar).map Bar.close) = [] ∨
      ((data.map to_bar).map Bar.close).length < cfg.rsi_length + 1) :=
    not_or.mpr ⟨hnec, by rw [hmapc]; omega⟩
  simp only [calculate, calcFromDf, calculate_atr, calculate_rsi, calculate_supertrend,
    if_neg g1, if_neg g2, if_neg g3, if_neg hne]
  rfl

theorem calculate_inv {cfg : SuperTrendConfig} {data : List MarketData} {r : SuperTrendResult}
    (h : calculate cfg data = some r) :
    cfg.periods + 1 ≤ data.length ∧ cfg.rsi_length + 1 ≤ data.length ∧
    r = calcResult cfg data := by
  have h1 : cfg.periods + 1 ≤ data.length := by
    by_contra hx
    rw [calculate_none_short cfg data (by omega)] at h
    exact Option.noConfusion h
  have h2 : cfg.rsi_length + 1 ≤ data.length := by
    by_contra hx
    rw [calculate_none_rsi cfg data (by omega)] at h
    exact Option.noConfusion h
  have heq := calculate_eq cfg data h1 h2
  rw [heq] at h
  exact ⟨h1, h2, (Option.some.inj h).symm⟩

def c5cfg : SuperTrendConfig := ⟨5, 2, 6, 50, 50, true, 50⟩

def c5data : List MarketData :=
  [⟨0, "X", 1, 2, 1, 2, 1⟩, ⟨1, "X", 2, 3, 2, 3, 1⟩, ⟨2, "X", 3, 4, 3, 4, 1⟩,
   ⟨3, "X", 4, 5, 4, 5, 1⟩, ⟨4, "X", 5, 6, 5, 6, 1⟩, ⟨5, "X", 6, 7, 6, 7, 1⟩]

/-- C5 counterexample: with the in-range configuration `periods = 5`,
`rsi_length = 6`, a buffer of exactly `periods + 1 = 6` candles still
yields `None`: the RSI stage needs `rsi_length + 1 = 7` closes and fails,
so `calculate` does not return a result snapshot at `periods + 1`. -/
theorem c5_insufficient_boundary_cex :
    c5data.length = c5cfg.periods + 1 ∧ calculate c5cfg c5data = none :=
  ⟨rfl, by decide!⟩

/-- C5 amended: with exactly `periods` candles `calculate` returns `None`
(insufficient data, not an error); with `periods + 1` candles it returns a
result snapshot provided `rsi_length ≤ periods` — in general a snapshot
requires at least `max(periods, rsi_length) + 1` candles because the RSI
stage needs `rsi_length + 1` closes. -/
theorem c5_insufficient_boundary_amended (cfg : SuperTrendConfig)
    (d1 d2 : List MarketData) (h1 : d1.length = cfg.periods)
    (h2 : d2.length = cfg.periods + 1) (h3 : cfg.rsi_length ≤ cfg.periods) :
    calculate cfg d1 = none ∧ ∃ r, calculate cfg d2 = some r := by
  constructor
  · exact calculate_none_short cfg d1 (by omega)
  · exact ⟨calcResult cfg d2, calculate_eq cfg d2 (by omega) (by omega)⟩

def c5acfg : SuperTrendConfig := ⟨2, 2, 2, 50, 50, true, 50⟩

def c5d1 : List MarketData := [⟨0, "X", 1, 1, 1, 1, 1⟩, ⟨1, "X", 1, 1, 1, 1, 1⟩]

def c5d2 : List MarketData :=
  [⟨0, "X", 1, 1, 1, 1, 1⟩, ⟨1, "X", 1, 1, 1, 1, 1⟩, ⟨2, "X", 1, 1, 1, 1, 1⟩]

/-- Witness for the amended C5 with `periods = rsi_length = 2`: two
candles give `None`, three give a snapshot. -/
theorem c5_insufficient_boundary_amended_witness :
    calculate c5acfg c5d1 = none ∧ ∃ r, calculate c5acfg c5d2 = some r :=
  c5_insufficient_boundary_amended c5acfg c5d1 c5d2 rfl rfl (by decide)

end SuperTrendPro

namespace SuperTrendPro

theorem ite_trend_id (t : Int) (hm : t = 1 ∨ t = -1) :
    (if t = -1 ∨ t = 1 then t else 1) = t :=
  if_pos (hm.elim Or.inr Or.inl)

/-- The reported trend field of a successful calculation is the last value
of the trend loop (the two {-1,+1} fallback filters are the identity on
it). -/
theorem calcResult_trend (cfg : SuperTrendConfig) (data : List MarketData) :
    (calcResult cfg data).trend =
      trendAt cfg (data.map to_bar) (atrAt (data.map to_bar) cfg.periods)
        ((data.map to_bar).length - 1) := by
  have hm := trendAt_mem cfg (data.map to_bar) (atrAt (data.map to_bar) cfg.periods)
    ((data.map to_bar).length - 1)
  have e1 := ite_trend_id _ hm
  simp only [calcResult, assemble]
  rw [e1]
  exact e1

theorem clip_vf_bounds (x : ℚ) :
    0 ≤ validate_float (min (max x 0) 100) 50 ∧
    validate_float (min (max x 0) 100) 50 ≤ 100 := by
  have h0 : 0 ≤ min (max x 0) 100 := le_min (le_max_right _ _) (by norm_num)
  have h1 : min (max x 0) 100 ≤ 100 := min_le_right _ _
  have hB : (100 : ℚ) ≤ 10 ^ 10 := by norm_num
  rw [vf_id (abs_le.mpr ⟨by linarith, by linarith⟩)]
  exact ⟨h0, h1⟩

theorem ite_trend_mem (t : Int) :
    (if t = -1 ∨ t = 1 then t else 1) = 1 ∨ (if t = -1 ∨ t = 1 then t else 1) = -1 := by
  by_cases h : t = -1 ∨ t = 1
  · rw [if_pos h]; exact h.elim Or.inr Or.inl
  · rw [if_neg h]; exact Or.inl rfl

set_option maxHeartbeats 2000000 in
theorem assemble_field_bounds (cfg : SuperTrendConfig) (df : List Bar)
    (atrF rsiF : Nat → ℚ) (u d : ℚ) (t : Int) :
    |(assemble cfg df atrF rsiF u d t).up| ≤ (10 : ℚ) ^ 10
    ∧ |(assemble cfg df atrF rsiF u d t).down| ≤ (10 : ℚ) ^ 10
    ∧ |(assemble cfg df atrF rsiF u d t).atr| ≤ (10 : ℚ) ^ 10
    ∧ (0 ≤ (assemble cfg df atrF rsiF u d t).trend_strength ∧
       (assemble cfg df atrF rsiF u d t).trend_strength ≤ 100) := by
  have ha : |(1 : ℚ)| ≤ (10 : ℚ) ^ 10 := by rw [abs_one]; norm_num
  have hb : |(1 : ℚ) / 10000| ≤ (10 : ℚ) ^ 10 := by
    rw [abs_of_pos (by norm_num : (0 : ℚ) < 1 / 10000)]; norm_num
  exact ⟨vf_bound (vf_bound ha), vf_bound (vf_bound ha), vf_bound hb,
    le_min (le_max_right _ _) (by norm_num), min_le_right _ _⟩

theorem clip_vf2_bounds (x : ℚ) :
    0 ≤ validate_float (validate_float (min (max x 0) 100) 50) 50 ∧
    validate_float (validate_float (min (max x 0) 100) 50) 50 ≤ 100 := by
  obtain ⟨h0, h1⟩ := clip_vf_bounds x
  have hB : (100 : ℚ) ≤ 10 ^ 10 := by norm_num
  rw [vf_id (abs_le.mpr ⟨by linarith, by linarith⟩)]
  exact ⟨h0, h1⟩

set_option maxHeartbeats 2000000 in
theorem assemble_rsi_bounds (cfg : SuperTrendConfig) (df : List Bar) (atrF : Nat → ℚ)
    (closes : List ℚ) (p : Nat) (u d : ℚ) (t : Int) :
    0 ≤ (assemble cfg df atrF (rsiAt closes p) u d t).rsi ∧
    (assemble cfg df atrF (rsiAt closes p) u d t).rsi ≤ 100 :=
  clip_vf2_bounds _

set_option maxHeartbeats 2000000 in
theorem assemble_trend_mem (cfg : SuperTrendConfig) (df : List Bar)
    (atrF rsiF : Nat → ℚ) (u d : ℚ) (t : Int) :
    (assemble cfg df atrF rsiF u d t).trend = 1 ∨
    (assemble cfg df atrF rsiF u d t).trend = -1 :=
  ite_trend_mem t

/-- C6: No-NaN invariant.  In the exact-rational embedding NaN and
infinity cannot arise at all; what remains of the claim is the contract of
the float-safety filter: every float field of a returned snapshot is a
genuine rational bounded by the 1e10 magnitude cap (`up`, `down`, `atr`),
`rsi` and `trend_strength` lie in [0,100], the trend is ±1, and any value
whose magnitude exceeds 1e10 is replaced by the caller-supplied default
rather than propagated. -/
theorem c6_no_nan_invariant (cfg : SuperTrendConfig) (data : List MarketData)
    (r : SuperTrendResult) (v dflt : ℚ)
    (h : calculate cfg data = some r) (hv : (10 : ℚ) ^ 10 < |v|) :
    |r.up| ≤ (10 : ℚ) ^ 10 ∧ |r.down| ≤ (10 : ℚ) ^ 10 ∧ |r.atr| ≤ (10 : ℚ) ^ 10
    ∧ (0 ≤ r.rsi ∧ r.rsi ≤ 100)
    ∧ (0 ≤ r.trend_strength ∧ r.trend_strength ≤ 100)
    ∧ (r.trend = 1 ∨ r.trend = -1)
    ∧ validate_float v dflt = dflt := by
  obtain ⟨h1, h2, hr⟩ := calculate_inv h
  subst hr
  exact ⟨(assemble_field_bounds _ _ _ _ _ _ _).1, (assemble_field_bounds _ _ _ _ _ _ _).2.1,
    (assemble_field_bounds _ _ _ _ _ _ _).2.2.1, assemble_rsi_bounds _ _ _ _ _ _ _ _,
    (assemble_field_bounds _ _ _ _ _ _ _).2.2.2, assemble_trend_mem _ _ _ _ _ _ _,
    vf_default hv⟩

def c6cfg : SuperTrendConfig := ⟨1, 2, 1, 50, 50, true, 50⟩

def c6data : List MarketData := [⟨0, "X", 1, 1, 1, 1, 0⟩, ⟨1, "X", 1, 1, 1, 1, 0⟩]

def c6r : SuperTrendResult := ⟨4999/5000, 5001/5000, 1, 1/10000, 0, 100, false, false, true⟩

/-- Witness for C6 on a flat two-candle series with zero volume. -/
theorem c6_no_nan_invariant_witness :
    |c6r.up| ≤ (10 : ℚ) ^ 10 ∧ |c6r.down| ≤ (10 : ℚ) ^ 10 ∧ |c6r.atr| ≤ (10 : ℚ) ^ 10
    ∧ (0 ≤ c6r.rsi ∧ c6r.rsi ≤ 100)
    ∧ (0 ≤ c6r.trend_strength ∧ c6r.trend_strength ≤ 100)
    ∧ (c6r.trend = 1 ∨ c6r.trend = -1)
    ∧ validate_float ((10 : ℚ) ^ 10 + 1) 7 = 7 :=
  c6_no_nan_invariant c6cfg c6data c6r ((10 : ℚ) ^ 10 + 1) 7 (by decide!) (by decide!)

/-- C10: Volume noninterference.  Two buffered series that agree on
timestamp, symbol and all four OHLC fields of every candle — differing
arbitrarily in volume — produce identical calculation outcomes: the
volume column is built by `_to_dataframe` but never read by the numeric
pipeline. -/
theorem c10_volume_noninterference (cfg : SuperTrendConfig) (d1 d2 : List MarketData)
    (h : List.Forall₂ (fun a b => a.timestamp = b.timestamp ∧ a.symbol = b.symbol ∧
      a.open_ = b.open_ ∧ a.high = b.high ∧ a.low = b.low ∧ a.close = b.close) d1 d2) :
    calculate cfg d1 = calculate cfg d2 := by
  have hmap : d1.map to_bar = d2.map to_bar := by
    induction h with
    | nil => rfl
    | cons hab hrest ih =>
      obtain ⟨-, -, ho, hh, hl, hc⟩ := hab
      simp only [List.map_cons]
      rw [ih]
      congr 1
      simp only [to_bar, to_row]
      rw [ho, hh, hl, hc]
  have hlen : d1.length = d2.length := h.length_eq
  unfold calculate
  rw [hmap, hlen]

def c10cfg : SuperTrendConfig := ⟨1, 2, 1, 50, 50, true, 50⟩

def c10d1 : List MarketData := [⟨0, "X", 1, 2, 1, 2, 5⟩, ⟨1, "X", 2, 3, 2, 3, 7⟩]

def c10d2 : List MarketData := [⟨0, "X", 1, 2, 1, 2, 11⟩, ⟨1, "X", 2, 3, 2, 3, 13⟩]

/-- Witness for C10: two two-candle series differing only in volume give
the same calculation outcome. -/
theorem c10_volume_noninterference_witness :
    calculate c10cfg c10d1 = calculate c10cfg c10d2 :=
  c10_volume_noninterference c10cfg c10d1 c10d2
    (List.Forall₂.cons ⟨rfl, rfl, rfl, rfl, rfl, rfl⟩
      (List.Forall₂.cons ⟨rfl, rfl, rfl, rfl, rfl, rfl⟩ List.Forall₂.nil))

end SuperTrendPro

namespace SuperTrendPro

/-- Evaluation of `_calculate_previous_trend` once its gates pass. -/
theorem calculate_previous_trend_eq (cfg : SuperTrendConfig) (df : List Bar)
    (hne : df ≠ []) (hlen : cfg.periods ≤ df.length) :
    calculate_previous_trend cfg df =
      some (validate_float (final_up cfg df (atrAt df cfg.periods) (df.length - 1))
              (closeAt df (df.length - 1)),
            validate_float (final_down cfg df (atrAt df cfg.periods) (df.length - 1))
              (closeAt df (df.length - 1)),
            if trendAt cfg df (atrAt df cfg.periods) (df.length - 1) = -1 ∨
               trendAt cfg df (atrAt df cfg.periods) (df.length - 1) = 1
            then trendAt cfg df (atrAt df cfg.periods) (df.length - 1) else 1) := by
  have g : ¬ (df = [] ∨ df.length < cfg.periods) := not_or.mpr ⟨hne, not_lt.mpr hlen⟩
  simp only [calculate_previous_trend, calculate_atr, calculate_supertrend,
    if_neg g, if_neg hne]

/-- Full characterisation of `_generate_signals` with at least two bars and
a previous-trend recomputation that succeeds: a buy (resp. sell) is
emitted iff the current trend differs from the recomputed previous trend,
is bullish (resp. bearish), and the RSI filter does not veto it; equal
trends emit nothing. -/
theorem generate_signals_spec (cfg : SuperTrendConfig) (df : List Bar) (cT : Int)
    (rF : Nat → ℚ) (h2 : 2 ≤ df.length)
    (hp : cfg.periods ≤ df.dropLast.length) (hcT : cT = 1 ∨ cT = -1) :
    ((generate_signals cfg df cT rF).1 = true ↔
      (trendAt cfg df.dropLast (atrAt df.dropLast cfg.periods) (df.dropLast.length - 1) = -1 ∧
       cT = 1 ∧
       ¬(cfg.use_rsi_filter = true ∧
         validate_float (rF (df.length - 1)) 50 ≤ cfg.rsi_buy_threshold)))
    ∧ ((generate_signals cfg df cT rF).2 = true ↔
      (trendAt cfg df.dropLast (atrAt df.dropLast cfg.periods) (df.dropLast.length - 1) = 1 ∧
       cT = -1 ∧
       ¬(cfg.use_rsi_filter = true ∧
         validate_float (rF (df.length - 1)) 50 ≥ cfg.rsi_sell_threshold)))
    ∧ (cT = trendAt cfg df.dropLast (atrAt df.dropLast cfg.periods) (df.dropLast.length - 1) →
       (generate_signals cfg df cT rF).1 = false ∧ (generate_signals cfg df cT rF).2 = false) := by
  have hne : df.dropLast ≠ [] := by
    have hpos : 0 < df.dropLast.length := by rw [List.length_dropLast]; omega
    exact List.length_pos.mp hpos
  have hmem := trendAt_mem cfg df.dropLast (atrAt df.dropLast cfg.periods)
    (df.dropLast.length - 1)
  have hprev := calculate_previous_trend_eq cfg df.dropLast hne hp
  rw [ite_trend_id _ hmem] at hprev
  simp only [generate_signals, if_neg (not_lt.mpr h2), hprev]
  rcases hcT with rfl | rfl
  · rcases hmem with hm | hm
    · rw [hm, if_neg (by decide : ¬ ((1 : Int) ≠ 1))]
      refine ⟨by simp, by simp, fun _ => ⟨rfl, rfl⟩⟩
    · rw [hm, if_pos (by decide : (1 : Int) ≠ -1), if_pos rfl]
      refine ⟨?_, by simp, ?_⟩
      · cases hf : cfg.use_rsi_filter <;>
          by_cases hc : validate_float (rF (df.length - 1)) 50 ≤ cfg.rsi_buy_threshold <;>
          simp [hf, hc]
      · intro hx; exact absurd hx (by decide)
  · rcases hmem with hm | hm
    · rw [hm, if_pos (by decide : (-1 : Int) ≠ 1), if_neg (by decide : ¬ ((-1 : Int) = 1)),
        if_pos rfl]
      refine ⟨by simp, ?_, ?_⟩
      · cases hf : cfg.use_rsi_filter <;>
          by_cases hc : validate_float (rF (df.length - 1)) 50 ≥ cfg.rsi_sell_threshold <;>
          simp [hf, hc]
      · intro hx; exact absurd hx (by decide)
    · rw [hm, if_neg (by decide : ¬ ((-1 : Int) ≠ -1))]
      refine ⟨by simp, by simp, fun _ => ⟨rfl, rfl⟩⟩

end SuperTrendPro

namespace SuperTrendPro

set_option maxHeartbeats 1000000 in
theorem calcResult_buy (cfg : SuperTrendConfig) (data : List MarketData) :
    (calcResult cfg data).buy_signal =
      (generate_signals cfg (data.map to_bar) ((calcResult cfg data).trend)
        (rsiAt ((data.map to_bar).map Bar.close) cfg.rsi_length)).1 := rfl

set_option maxHeartbeats 1000000 in
theorem calcResult_sell (cfg : SuperTrendConfig) (data : List MarketData) :
    (calcResult cfg data).sell_signal =
      (generate_signals cfg (data.map to_bar) ((calcResult cfg data).trend)
        (rsiAt ((data.map to_bar).map Bar.close) cfg.rsi_length)).2 := rfl

set_option maxHeartbeats 1000000 in
theorem calcResult_rsi (cfg : SuperTrendConfig) (data : List MarketData) :
    (calcResult cfg data).rsi =
      validate_float (rsiAt ((data.map to_bar).map Bar.close) cfg.rsi_length
        ((data.map to_bar).length - 1)) 50 := rfl

/-- C3: Signal rule of `_generate_signals` (lines 324-364), observed
through `calculate`.  On every successful calculation (with the configured
lookback at least 1, as the valid range [5,50] guarantees), the buy signal
is true iff the trend flipped from -1 to +1 between the buffer with its
last bar excluded and the full buffer and the RSI filter does not veto it
(`use_rsi_filter ∧ rsi ≤ rsi_buy_threshold`); the sell signal is true iff
the trend flipped from +1 to -1 and the RSI filter does not veto it
(`use_rsi_filter ∧ rsi ≥ rsi_sell_threshold`); when the trend did not
change, both signals are false regardless of RSI; and the reported trend
is the last value of the trend loop on the full buffer. -/
theorem c3_signal_edge_rsi (cfg : SuperTrendConfig) (data : List MarketData)
    (r : SuperTrendResult) (hp0 : 1 ≤ cfg.periods)
    (h : calculate cfg data = some r) :
    (r.buy_signal = true ↔
      (trendAt cfg ((data.map to_bar).dropLast)
         (atrAt ((data.map to_bar).dropLast) cfg.periods)
         (((data.map to_bar).dropLast).length - 1) = -1
       ∧ r.trend = 1
       ∧ ¬(cfg.use_rsi_filter = true ∧ r.rsi ≤ cfg.rsi_buy_threshold)))
    ∧ (r.sell_signal = true ↔
      (trendAt cfg ((data.map to_bar).dropLast)
         (atrAt ((data.map to_bar).dropLast) cfg.periods)
         (((data.map to_bar).dropLast).length - 1) = 1
       ∧ r.trend = -1
       ∧ ¬(cfg.use_rsi_filter = true ∧ r.rsi ≥ cfg.rsi_sell_threshold)))
    ∧ (r.trend = trendAt cfg ((data.map to_bar).dropLast)
         (atrAt ((data.map to_bar).dropLast) cfg.periods)
         (((data.map to_bar).dropLast).length - 1) →
       r.buy_signal = false ∧ r.sell_signal = false)
    ∧ r.trend = trendAt cfg (data.map to_bar) (atrAt (data.map to_bar) cfg.periods)
        ((data.map to_bar).length - 1) := by
  obtain ⟨h1, h2, hr⟩ := calculate_inv h
  subst hr
  have hlen : (data.map to_bar).length = data.length := by simp
  have hn2 : 2 ≤ (data.map to_bar).length := by rw [hlen]; omega
  have hdp : cfg.periods ≤ (data.map to_bar).dropLast.length := by
    rw [List.length_dropLast, hlen]; omega
  have htrend := calcResult_trend cfg data
  have hmem := trendAt_mem cfg (data.map to_bar) (atrAt (data.map to_bar) cfg.periods)
    ((data.map to_bar).length - 1)
  have hcT : (calcResult cfg data).trend = 1 ∨ (calcResult cfg data).trend = -1 := by
    rw [htrend]; exact hmem
  have hG := generate_signals_spec cfg (data.map to_bar) ((calcResult cfg data).trend)
    (rsiAt ((data.map to_bar).map Bar.close) cfg.rsi_length) hn2 hdp hcT
  have hbuy := calcResult_buy cfg data
  have hsell := calcResult_sell cfg data
  have hrsi := calcResult_rsi cfg data
  refine ⟨?_, ?_, ?_, htrend⟩
  · rw [hbuy, hrsi]
    exact hG.1
  · rw [hsell, hrsi]
    exact hG.2.1
  · intro hx
    exact ⟨by rw [hbuy]; exact (hG.2.2 hx).1, by rw [hsell]; exact (hG.2.2 hx).2⟩

def c3cfg : SuperTrendConfig := ⟨1, 2, 1, 50, 50, true, 50⟩

def c3data : List MarketData := [⟨0, "X", 1, 1, 1, 1, 1⟩, ⟨1, "X", 1, 1, 1, 1, 1⟩]

def c3r : SuperTrendResult := ⟨4999/5000, 5001/5000, 1, 1/10000, 0, 100, false, false, true⟩

/-- Witness for C3 on a flat two-candle series (no flip, so both signals
are false). -/
theorem c3_signal_edge_rsi_witness :
    (c3r.buy_signal = true ↔
      (trendAt c3cfg ((c3data.map to_bar).dropLast)
         (atrAt ((c3data.map to_bar).dropLast) c3cfg.periods)
         (((c3data.map to_bar).dropLast).length - 1) = -1
       ∧ c3r.trend = 1
       ∧ ¬(c3cfg.use_rsi_filter = true ∧ c3r.rsi ≤ c3cfg.rsi_buy_threshold)))
    ∧ (c3r.sell_signal = true ↔
      (trendAt c3cfg ((c3data.map to_bar).dropLast)
         (atrAt ((c3data.map to_bar).dropLast) c3cfg.periods)
         (((c3data.map to_bar).dropLast).length - 1) = 1
       ∧ c3r.trend = -1
       ∧ ¬(c3cfg.use_rsi_filter = true ∧ c3r.rsi ≥ c3cfg.rsi_sell_threshold)))
    ∧ (c3r.trend = trendAt c3cfg ((c3data.map to_bar).dropLast)
         (atrAt ((c3data.map to_bar).dropLast) c3cfg.periods)
         (((c3data.map to_bar).dropLast).length - 1) →
       c3r.buy_signal = false ∧ c3r.sell_signal = false)
    ∧ c3r.trend = trendAt c3cfg (c3data.map to_bar)
        (atrAt (c3data.map to_bar) c3cfg.periods) ((c3data.map to_bar).length - 1) :=
  c3_signal_edge_rsi c3cfg c3data c3r (by decide) (by decide!)

end SuperTrendPro
